import Mathlib

/-!
Verification of the Continuum runtime specification.

The repository ships a Python binding layer (`continuum/__init__.py`) and a
demo script (`examples/example.py`); the Rust core they bind to is not part
of the source tree.  The core's data model and operations are therefore
modelled here from the specification text, while the binding layer and the
demo's `kl_divergence` are embedded directly from the Python source.
-/

namespace Continuum

/-- Modelled from the spec: §4.1 `metrics_on` result `{mse, mae, n}` of the
estimator interface (the Rust core is missing from the source tree). -/
structure Metrics where
  mse : ℝ
  mae : ℝ
  n : ℕ

/-- Modelled from the spec: §3 `LearningConfig` configuration record
(the Rust core is missing from the source tree). -/
structure LearningConfig where
  enabled : Bool
  interval_sec : ℕ
  min_samples : ℕ
  auto_swap : Bool
  validation_threshold : ℝ
  use_kl_divergence : Bool

/-- Modelled from the spec: §7 error taxonomy of the core
(the Rust core is missing from the source tree). -/
inductive ContinuumError where
  | NotFound
  | AlreadyExists
  | UnknownFamily
  | NotTrained
  | DimensionMismatch
  | InsufficientData
  | NumericalFailure
  | Busy
  | Internal
deriving DecidableEq

/-- Modelled from the spec: §3 training example
`{features, label, weight (default 1.0)}` (the Rust core is missing from
the source tree; `arrival_seq` is realised by list position). -/
structure Example where
  features : List ℝ
  label : ℝ
  weight : ℝ

/-- Modelled from the spec: §4.1 estimator interface, abstracted to its
training dimension and prediction function (the Rust core is missing from
the source tree; the concrete regression mathematics is out of scope). -/
structure Estimator where
  dim : ℕ
  predictFn : List ℝ → ℝ

/-- Modelled from the spec: §4.2 versioned model cell triple
`(estimator, version, fit_stats)`; version 0 means registered but never
successfully fit, with no estimator present (the Rust core is missing from
the source tree). -/
structure Triple where
  estimator : Option Estimator
  version : ℕ
  fitStats : Option Metrics

/-- Modelled from the spec: §6 per-model stats, at least
`n_examples_seen`, `n_swaps`, `last_mse`; trainer errors are recorded here
(§7) (the Rust core is missing from the source tree). -/
structure ModelStats where
  n_examples_seen : ℕ
  n_swaps : ℕ
  last_mse : Option ℝ
  last_error : Option ContinuumError

/-- Modelled from the spec: §2 item 4 model entry aggregating the cell, the
training buffer, the `is_training` flag, per-model stats and the feature
dimensionality fixed at the first successful fit (§3) (the Rust core is
missing from the source tree). -/
structure ModelEntry where
  cell : Triple
  buffer : List Example
  is_training : Bool
  stats : ModelStats
  dim : Option ℕ

/-- Modelled from the spec: §4.5 validator decision. -/
inductive SwapDecision where
  | commit
  | discard
deriving DecidableEq

/-- Outcome tag of one trainer tick on one entry (spec §4.4): the entry was
skipped, or a retrain was attempted and ended in a fit failure, a committed
swap, or a discarded candidate. -/
inductive TickOutcome where
  | skipped
  | fitFailed
  | committed
  | discarded
deriving DecidableEq

/-- A retrain was attempted on this tick (anything but a skip). -/
def TickOutcome.attempted : TickOutcome → Bool
  | .skipped => false
  | .fitFailed => true
  | .committed => true
  | .discarded => true

/-- Embedded from `examples/example.py` (`kl_divergence`): add the epsilon
`1e-10` to every element ("Add small epsilon to avoid division by zero"). -/
noncomputable def addEps (xs : List ℝ) : List ℝ :=
  xs.map (fun x => x + 1e-10)

/-- Embedded from `examples/example.py` (`kl_divergence`): normalize a
vector by its sum (`p = p / np.sum(p)`). -/
noncomputable def renormalize (xs : List ℝ) : List ℝ :=
  xs.map (fun x => x / xs.sum)

/-- Embedded from `examples/example.py` (`kl_divergence`): the smoothing and
normalization applied to each input vector. -/
noncomputable def normalizeDist (xs : List ℝ) : List ℝ :=
  renormalize (addEps xs)

/-- Pointwise Kullback–Leibler sum `Σ p_i * log (p_i / q_i)` over two
already-normalized vectors, as in the last line of the demo's
`kl_divergence` (`np.sum(p * np.log(p / q))`). -/
noncomputable def klDiv (p q : List ℝ) : ℝ :=
  (List.zipWith (fun a b => a * Real.log (a / b)) p q).sum

/-- Embedded from `examples/example.py` lines 32–45: `kl_divergence(p, q)`
adds `1e-10` to both vectors, normalizes each by its sum, and returns
`np.sum(p * np.log(p / q))`. -/
noncomputable def kl_divergence (p q : List ℝ) : ℝ :=
  klDiv (normalizeDist p) (normalizeDist q)

/-- Modelled from the spec: §4.5 case D min-max normalization
`(x - min) / (max - min)` over a prediction vector (the Rust core is
missing from the source tree). -/
noncomputable def minmaxNormalize (xs : List ℝ) : List ℝ :=
  match xs with
  | [] => []
  | a :: rest =>
      let mn := (a :: rest).foldl min a
      let mx := (a :: rest).foldl max a
      (a :: rest).map (fun x => (x - mn) / (mx - mn))

/-- Modelled from the spec: §4.5 case D — predictions over the batch become
an empirical distribution by min-max normalization, then `+1e-10`
smoothing, then renormalization (the Rust core is missing from the source
tree). -/
noncomputable def toEmpiricalDist (xs : List ℝ) : List ℝ :=
  renormalize (addEps (minmaxNormalize xs))

/-- Modelled from the spec: §4.5 case C relative MSE improvement
`(incumbent.mse - candidate.mse) / max(incumbent.mse, 1e-12)` (the Rust
core is missing from the source tree). -/
noncomputable def relImprovement (inc_m cand_m : Metrics) : ℝ :=
  (inc_m.mse - cand_m.mse) / max inc_m.mse 1e-12

open Classical in
/-- Modelled from the spec: §4.5 validator.  Case A (no incumbent, version
0) always commits and precedes case B; case B (`auto_swap == false`) always
discards; otherwise the configured metric decides, with the spec's
tie-breaking rule (exact equality → discard, conservative) applied to the
quantity each mode compares: the metrics records in MSE mode, the
prediction vectors in KL mode (the Rust core is missing from the source
tree). -/
noncomputable def validate (incumbentVersion : ℕ) (cfg : LearningConfig)
    (inc_m cand_m : Metrics) (inc_preds cand_preds : List ℝ) : SwapDecision :=
  if incumbentVersion = 0 then SwapDecision.commit
  else if cfg.auto_swap = false then SwapDecision.discard
  else if cfg.use_kl_divergence = true then
    if cand_preds = inc_preds then SwapDecision.discard
    else if klDiv (toEmpiricalDist cand_preds) (toEmpiricalDist inc_preds) ≥
        cfg.validation_threshold then SwapDecision.commit
    else SwapDecision.discard
  else
    if cand_m = inc_m then SwapDecision.discard
    else if relImprovement inc_m cand_m ≥ cfg.validation_threshold then
      SwapDecision.commit
    else SwapDecision.discard

/-- Modelled from the spec: §4.1 the predictions of an estimator over a
batch, used by the validator's KL mode (the Rust core is missing from the
source tree). -/
def Estimator.predsOn (est : Estimator) (B : List Example) : List ℝ :=
  B.map (fun ex => est.predictFn ex.features)

/-- Modelled from the spec: §4.1 `metrics_on(batch) -> {mse, mae, n}` (the
Rust core is missing from the source tree). -/
noncomputable def Estimator.metricsOn (est : Estimator) (B : List Example) : Metrics :=
  { mse := (B.map (fun ex => (est.predictFn ex.features - ex.label) ^ 2)).sum / (B.length : ℝ)
    mae := (B.map (fun ex => |est.predictFn ex.features - ex.label|)).sum / (B.length : ℝ)
    n := B.length }

/-- Metrics of the incumbent on a batch; before the first fit there is no
incumbent and the validator commits in case A without consulting them, so a
zero record stands in. -/
noncomputable def incumbentMetricsOn (o : Option Estimator) (B : List Example) : Metrics :=
  match o with
  | some est => est.metricsOn B
  | none => ⟨0, 0, 0⟩

/-- Predictions of the incumbent on a batch; empty before the first fit
(unused then, as case A commits unconditionally). -/
def incumbentPredsOn (o : Option Estimator) (B : List Example) : List ℝ :=
  match o with
  | some est => est.predsOn B
  | none => []

/-- Modelled from the spec: §4.6 `predict` on a loaded cell triple — fails
`NotTrained` on version 0, `DimensionMismatch` on a feature length other
than the training dimension, and otherwise returns the prediction together
with the version of the serving triple (the Rust core is missing from the
source tree). -/
def predictTriple (t : Triple) (features : List ℝ) : Except ContinuumError (ℝ × ℕ) :=
  if t.version = 0 then Except.error ContinuumError.NotTrained
  else
    match t.estimator with
    | none => Except.error ContinuumError.Internal
    | some est =>
        if features.length = est.dim then Except.ok (est.predictFn features, t.version)
        else Except.error ContinuumError.DimensionMismatch

/-- Modelled from the spec: §4.6 `predict` loads the entry's cell once and
serves from that snapshot (the Rust core is missing from the source tree). -/
def predict (e : ModelEntry) (features : List ℝ) : Except ContinuumError (ℝ × ℕ) :=
  predictTriple e.cell features

/-- Modelled from the spec: §4.3 buffer capacity default 10,000. -/
def bufferCapacity : ℕ := 10000

/-- Modelled from the spec: §4.3 bounded push with the default drop-oldest
overflow policy (the Rust core is missing from the source tree). -/
def bufferPush (buf : List Example) (ex : Example) : List Example :=
  if bufferCapacity ≤ buf.length then buf.tail ++ [ex] else buf ++ [ex]

/-- Modelled from the spec: the state change of a successful example push —
the example enters the buffer (weight default 1.0) and `n_examples_seen`
advances; the published cell is untouched (the Rust core is missing from
the source tree). -/
def pushState (e : ModelEntry) (features : List ℝ) (label : ℝ) : ModelEntry :=
  { e with
    buffer := bufferPush e.buffer ⟨features, label, 1⟩
    stats := { e.stats with n_examples_seen := e.stats.n_examples_seen + 1 } }

/-- Modelled from the spec: §4.4 — on fit failure the trainer releases
`is_training`, records the error in the entry's stats, and leaves the
published cell unchanged; the drained batch is consumed (the Rust core is
missing from the source tree). -/
def entryAfterFitFailure (e : ModelEntry) (err : ContinuumError) : ModelEntry :=
  { e with
    buffer := []
    is_training := false
    stats := { e.stats with last_error := some err } }

/-- Modelled from the spec: §4.4 commit path — the new triple carries the
candidate with `version = incumbent.version + 1`, the swap count advances,
and the dimensionality is fixed at the first successful fit (the Rust core
is missing from the source tree). -/
noncomputable def commitSwap (e : ModelEntry) (cand : Estimator) : ModelEntry :=
  { e with
    buffer := []
    is_training := false
    cell := { estimator := some cand
              version := e.cell.version + 1
              fitStats := some (cand.metricsOn e.buffer) }
    dim := some (e.dim.getD cand.dim)
    stats := { e.stats with
               n_swaps := e.stats.n_swaps + 1
               last_mse := some (cand.metricsOn e.buffer).mse } }

/-- Modelled from the spec: §4.4/§4.5 discard path — the candidate is
dropped, its metrics are recorded in stats, the published cell is
unchanged, and the dimensionality is still fixed by the successful fit (the
Rust core is missing from the source tree). -/
noncomputable def discardCandidate (e : ModelEntry) (cand : Estimator) : ModelEntry :=
  { e with
    buffer := []
    is_training := false
    dim := some (e.dim.getD cand.dim)
    stats := { e.stats with last_mse := some (cand.metricsOn e.buffer).mse } }

/-- Modelled from the spec: §4.4 — after a successful fit the validator is
invoked on the batch metrics and predictions of candidate and incumbent,
and its decision selects the commit or discard path (the Rust core is
missing from the source tree). -/
noncomputable def entryAfterFitSuccess (cfg : LearningConfig) (e : ModelEntry)
    (cand : Estimator) : ModelEntry × TickOutcome :=
  match validate e.cell.version cfg
      (incumbentMetricsOn e.cell.estimator e.buffer)
      (cand.metricsOn e.buffer)
      (incumbentPredsOn e.cell.estimator e.buffer)
      (cand.predsOn e.buffer) with
  | SwapDecision.commit => (commitSwap e cand, TickOutcome.committed)
  | SwapDecision.discard => (discardCandidate e cand, TickOutcome.discarded)

/-- Modelled from the spec: §4.4 one trainer tick on one entry — skip if
the entry is already training or the buffer is below `min_samples`;
otherwise drain the whole buffer, fit a candidate (the estimator family's
`fit` is a parameter), and follow the fit-failure or validation path (the
Rust core is missing from the source tree). -/
noncomputable def trainerTickEntry (cfg : LearningConfig)
    (fitf : List Example → Except ContinuumError Estimator)
    (e : ModelEntry) : ModelEntry × TickOutcome :=
  if e.is_training = true then (e, TickOutcome.skipped)
  else if e.buffer.length < cfg.min_samples then (e, TickOutcome.skipped)
  else
    match fitf e.buffer with
    | Except.error err => (entryAfterFitFailure e err, TickOutcome.fitFailed)
    | Except.ok cand => entryAfterFitSuccess cfg e cand

/-- Modelled from the spec: §4.4 one trainer cycle over a registry snapshot
processes every entry independently (the Rust core is missing from the
source tree). -/
noncomputable def trainerCycle (cfg : LearningConfig)
    (fitf : List Example → Except ContinuumError Estimator)
    (reg : List ModelEntry) : List ModelEntry :=
  reg.map (fun e => (trainerTickEntry cfg fitf e).1)

/-- Modelled from the spec: §4.6 `add_training_example` — fails
`DimensionMismatch` once a feature length is established and the new
example differs, leaving the entry untouched; otherwise the example is
pushed and, when `do_train_immediately` is set, an ad-hoc trainer tick runs
inline under the same guards (the Rust core is missing from the source
tree). -/
noncomputable def add_training_example (cfg : LearningConfig)
    (fitf : List Example → Except ContinuumError Estimator)
    (e : ModelEntry) (features : List ℝ) (label : ℝ) (do_train : Bool) :
    ModelEntry × Option ContinuumError :=
  match e.dim with
  | some d =>
      if features.length = d then
        (if do_train = true then (trainerTickEntry cfg fitf (pushState e features label)).1
         else pushState e features label, none)
      else (e, some ContinuumError.DimensionMismatch)
  | none =>
      (if do_train = true then (trainerTickEntry cfg fitf (pushState e features label)).1
       else pushState e features label, none)

/-- Modelled from the spec: the observable transitions of one model entry —
an example push (with either value of the immediate-train flag) or a
background trainer tick, over an arbitrary estimator family (the Rust core
is missing from the source tree). -/
inductive EntryStep (cfg : LearningConfig) : ModelEntry → ModelEntry → Prop where
  | push (e : ModelEntry) (fitf : List Example → Except ContinuumError Estimator)
      (features : List ℝ) (label : ℝ) (dt : Bool) :
      EntryStep cfg e (add_training_example cfg fitf e features label dt).1
  | tick (e : ModelEntry) (fitf : List Example → Except ContinuumError Estimator) :
      EntryStep cfg e (trainerTickEntry cfg fitf e).1

/-- Finitely many entry transitions: the states of one entry observable at
two points in time, the later reached from the earlier. -/
def EntrySteps (cfg : LearningConfig) : ModelEntry → ModelEntry → Prop :=
  Relation.ReflTransGen (EntryStep cfg)

/-- Modelled from the spec: §4.5/§6 — `validation_threshold` defaults to
0.0 (commit on any improvement). -/
def defaultValidationThreshold : ℝ := 0

namespace Binding

/-- A Python attribute dictionary: method name to bound function, as seen
by attribute lookup on a class in `continuum/__init__.py`. -/
def MethodDict (α β : Type) : Type := String → Option (α → β)

/-- Embedded from `continuum/__init__.py`: the body of each of the six
alias classes is `pass` — it defines no methods of its own. -/
def passBody (α β : Type) : MethodDict α β := fun _ => none

/-- A Python class as its method resolution order: the class's own
dictionary followed by the dictionaries of its bases. -/
structure PyClassT (α β : Type) where
  mro : List (MethodDict α β)

/-- Python attribute lookup: first hit along the method resolution order. -/
def firstHit {α β : Type} : List (MethodDict α β) → String → Option (α → β)
  | [], _ => none
  | d :: rest, m =>
      match d m with
      | some f => some f
      | none => firstHit rest m

/-- Look a method up on a class. -/
def lookupMethod {α β : Type} (c : PyClassT α β) (m : String) : Option (α → β) :=
  firstHit c.mro m

/-- Call a method on a class: resolve it, then apply it to the input
(`none` when the attribute does not exist). -/
def callMethod {α β : Type} (c : PyClassT α β) (m : String) (x : α) : Option β :=
  Option.map (fun f => f x) (lookupMethod c m)

/-- Embedded from `continuum/__init__.py`: `class X(PyX): pass` — a
subclass whose own dictionary is empty, in front of its base's MRO. -/
def deriveEmptyBody {α β : Type} (parent : PyClassT α β) : PyClassT α β :=
  { mro := passBody α β :: parent.mro }

/-- Embedded from `continuum/__init__.py` line 32: `class Continuum(PyContinuum): pass`. -/
def Continuum {α β : Type} (pyContinuum : PyClassT α β) : PyClassT α β :=
  deriveEmptyBody pyContinuum

/-- Embedded from `continuum/__init__.py`: `class ModelParameters(PyModelParameters): pass`. -/
def ModelParameters {α β : Type} (pyModelParameters : PyClassT α β) : PyClassT α β :=
  deriveEmptyBody pyModelParameters

/-- Embedded from `continuum/__init__.py`: `class LearningConfig(PyLearningConfig): pass`. -/
def LearningConfig {α β : Type} (pyLearningConfig : PyClassT α β) : PyClassT α β :=
  deriveEmptyBody pyLearningConfig

/-- Embedded from `continuum/__init__.py`: `class PredictionResponse(PyPredictionResponse): pass`. -/
def PredictionResponse {α β : Type} (pyPredictionResponse : PyClassT α β) : PyClassT α β :=
  deriveEmptyBody pyPredictionResponse

/-- Embedded from `continuum/__init__.py`: `class BatchPredictionResponse(PyBatchPredictionResponse): pass`. -/
def BatchPredictionResponse {α β : Type} (pyBatchPredictionResponse : PyClassT α β) : PyClassT α β :=
  deriveEmptyBody pyBatchPredictionResponse

/-- Embedded from `continuum/__init__.py`: `class ModelInfo(PyModelInfo): pass`. -/
def ModelInfo {α β : Type} (pyModelInfo : PyClassT α β) : PyClassT α β :=
  deriveEmptyBody pyModelInfo

end Binding

/-- A one-feature estimator that predicts 0, used as a concrete sample. -/
def estSample : Estimator := ⟨1, fun _ => 0⟩

/-- An estimator family whose fit always succeeds with `estSample`. -/
def fitOk : List Example → Except ContinuumError Estimator :=
  fun _ => Except.ok estSample

/-- An estimator family whose fit always fails with `NumericalFailure`. -/
def fitErr : List Example → Except ContinuumError Estimator :=
  fun _ => Except.error ContinuumError.NumericalFailure

/-- Fresh stats record. -/
def statsInit : ModelStats := ⟨0, 0, none, none⟩

/-- A sample example with one feature. -/
def exSample : Example := ⟨[0], 0, 1⟩

/-- A registered-but-never-fit entry (version 0, empty buffer). -/
def entryV0 : ModelEntry := ⟨⟨none, 0, none⟩, [], false, statsInit, none⟩

/-- A version-0 entry holding one buffered example. -/
def entryBuf1 : ModelEntry := ⟨⟨none, 0, none⟩, [exSample], false, statsInit, none⟩

/-- A fitted entry at version 1 serving `estSample`, with dimension fixed
at 1. -/
def entryV1 : ModelEntry :=
  ⟨⟨some estSample, 1, none⟩, [], false, statsInit, some 1⟩

/-- Sample config: auto swap on, MSE mode, `min_samples` 0. -/
def cfgCommit : LearningConfig := ⟨true, 1, 0, true, 0, false⟩

/-- Sample config: auto swap off (dry run). -/
def cfgAF : LearningConfig := ⟨true, 1, 0, false, 0, false⟩

/-- Sample config: auto swap on, MSE mode, `min_samples` 1. -/
def cfgMSE : LearningConfig := ⟨true, 1, 1, true, 0, false⟩

/-- Sample config: auto swap on, KL mode. -/
def cfgKL : LearningConfig := ⟨true, 1, 1, true, 0, true⟩

/-! ## Helper lemmas about the validator and the trainer tick -/

theorem validate_zero (cfg : LearningConfig) (a b : Metrics) (ip cp : List ℝ) :
    validate 0 cfg a b ip cp = SwapDecision.commit := by
  unfold validate
  simp

theorem validate_discard_af {cfg : LearningConfig} {v : ℕ} (hv : v ≠ 0)
    (hs : cfg.auto_swap = false) (a b : Metrics) (ip cp : List ℝ) :
    validate v cfg a b ip cp = SwapDecision.discard := by
  unfold validate
  rw [if_neg hv, if_pos hs]

theorem validate_commit_af {cfg : LearningConfig} {v : ℕ} {a b : Metrics}
    {ip cp : List ℝ} (hs : cfg.auto_swap = false)
    (h : validate v cfg a b ip cp = SwapDecision.commit) : v = 0 := by
  by_cases hv : v = 0
  · exact hv
  · rw [validate_discard_af hv hs] at h
    exact SwapDecision.noConfusion h

theorem tick_skip_training {cfg : LearningConfig}
    {fitf : List Example → Except ContinuumError Estimator} {e : ModelEntry}
    (h : e.is_training = true) :
    trainerTickEntry cfg fitf e = (e, TickOutcome.skipped) := by
  unfold trainerTickEntry
  rw [if_pos h]

theorem tick_skip_len {cfg : LearningConfig}
    {fitf : List Example → Except ContinuumError Estimator} {e : ModelEntry}
    (h1 : ¬ e.is_training = true) (h2 : e.buffer.length < cfg.min_samples) :
    trainerTickEntry cfg fitf e = (e, TickOutcome.skipped) := by
  unfold trainerTickEntry
  rw [if_neg h1, if_pos h2]

theorem tick_fit_error {cfg : LearningConfig}
    {fitf : List Example → Except ContinuumError Estimator} {e : ModelEntry}
    {err : ContinuumError} (h1 : ¬ e.is_training = true)
    (h2 : ¬ e.buffer.length < cfg.min_samples)
    (hf : fitf e.buffer = Except.error err) :
    trainerTickEntry cfg fitf e = (entryAfterFitFailure e err, TickOutcome.fitFailed) := by
  unfold trainerTickEntry
  rw [if_neg h1, if_neg h2, hf]

theorem tick_fit_ok {cfg : LearningConfig}
    {fitf : List Example → Except ContinuumError Estimator} {e : ModelEntry}
    {c : Estimator} (h1 : ¬ e.is_training = true)
    (h2 : ¬ e.buffer.length < cfg.min_samples)
    (hf : fitf e.buffer = Except.ok c) :
    trainerTickEntry cfg fitf e = entryAfterFitSuccess cfg e c := by
  unfold trainerTickEntry
  rw [if_neg h1, if_neg h2, hf]

theorem afs_cases (cfg : LearningConfig) (e : ModelEntry) (c : Estimator) :
    (validate e.cell.version cfg (incumbentMetricsOn e.cell.estimator e.buffer)
        (c.metricsOn e.buffer) (incumbentPredsOn e.cell.estimator e.buffer)
        (c.predsOn e.buffer) = SwapDecision.commit ∧
      entryAfterFitSuccess cfg e c = (commitSwap e c, TickOutcome.committed)) ∨
    (validate e.cell.version cfg (incumbentMetricsOn e.cell.estimator e.buffer)
        (c.metricsOn e.buffer) (incumbentPredsOn e.cell.estimator e.buffer)
        (c.predsOn e.buffer) = SwapDecision.discard ∧
      entryAfterFitSuccess cfg e c = (discardCandidate e c, TickOutcome.discarded)) := by
  unfold entryAfterFitSuccess
  cases hval : validate e.cell.version cfg (incumbentMetricsOn e.cell.estimator e.buffer)
      (c.metricsOn e.buffer) (incumbentPredsOn e.cell.estimator e.buffer)
      (c.predsOn e.buffer) with
  | commit => exact Or.inl ⟨rfl, rfl⟩
  | discard => exact Or.inr ⟨rfl, rfl⟩

theorem tick_cases (cfg : LearningConfig)
    (fitf : List Example → Except ContinuumError Estimator) (e : ModelEntry) :
    trainerTickEntry cfg fitf e = (e, TickOutcome.skipped) ∨
    (∃ err, trainerTickEntry cfg fitf e =
        (entryAfterFitFailure e err, TickOutcome.fitFailed)) ∨
    (∃ c, trainerTickEntry cfg fitf e = (commitSwap e c, TickOutcome.committed) ∧
        validate e.cell.version cfg (incumbentMetricsOn e.cell.estimator e.buffer)
          (c.metricsOn e.buffer) (incumbentPredsOn e.cell.estimator e.buffer)
          (c.predsOn e.buffer) = SwapDecision.commit) ∨
    (∃ c, trainerTickEntry cfg fitf e =
        (discardCandidate e c, TickOutcome.discarded)) := by
  by_cases h1 : e.is_training = true
  · exact Or.inl (tick_skip_training h1)
  by_cases h2 : e.buffer.length < cfg.min_samples
  · exact Or.inl (tick_skip_len h1 h2)
  cases hf : fitf e.buffer with
  | error err => exact Or.inr (Or.inl ⟨err, tick_fit_error h1 h2 hf⟩)
  | ok c =>
      rcases afs_cases cfg e c with ⟨hval, heq⟩ | ⟨hval, heq⟩
      · exact Or.inr (Or.inr (Or.inl ⟨c, (tick_fit_ok h1 h2 hf).trans heq, hval⟩))
      · exact Or.inr (Or.inr (Or.inr ⟨c, (tick_fit_ok h1 h2 hf).trans heq⟩))

theorem tick_version_shape (cfg : LearningConfig)
    (fitf : List Example → Except ContinuumError Estimator) (e : ModelEntry) :
    ((trainerTickEntry cfg fitf e).1.cell.version = e.cell.version ∧
      (trainerTickEntry cfg fitf e).2 ≠ TickOutcome.committed) ∨
    ((trainerTickEntry cfg fitf e).1.cell.version = e.cell.version + 1 ∧
      (trainerTickEntry cfg fitf e).2 = TickOutcome.committed) := by
  rcases tick_cases cfg fitf e with h | ⟨err, h⟩ | ⟨c, h, -⟩ | ⟨c, h⟩ <;> rw [h]
  · exact Or.inl ⟨rfl, by simp⟩
  · exact Or.inl ⟨rfl, by simp⟩
  · exact Or.inr ⟨rfl, rfl⟩
  · exact Or.inl ⟨rfl, by simp⟩

theorem tick_version_le (cfg : LearningConfig)
    (fitf : List Example → Except ContinuumError Estimator) (e : ModelEntry) :
    e.cell.version ≤ (trainerTickEntry cfg fitf e).1.cell.version := by
  rcases tick_version_shape cfg fitf e with ⟨h, -⟩ | ⟨h, -⟩ <;> omega

theorem tick_committed_version {cfg : LearningConfig}
    {fitf : List Example → Except ContinuumError Estimator} {e : ModelEntry}
    (h : (trainerTickEntry cfg fitf e).2 = TickOutcome.committed) :
    (trainerTickEntry cfg fitf e).1.cell.version = e.cell.version + 1 := by
  rcases tick_version_shape cfg fitf e with ⟨-, hn⟩ | ⟨h1, -⟩
  · exact absurd h hn
  · exact h1

theorem tick_committed_af {cfg : LearningConfig}
    {fitf : List Example → Except ContinuumError Estimator} {e : ModelEntry}
    (hs : cfg.auto_swap = false)
    (h : (trainerTickEntry cfg fitf e).2 = TickOutcome.committed) :
    e.cell.version = 0 := by
  rcases tick_cases cfg fitf e with he | ⟨err, he⟩ | ⟨c, he, hval⟩ | ⟨c, he⟩
  · rw [he] at h; exact absurd h (by simp)
  · rw [he] at h; exact absurd h (by simp)
  · exact validate_commit_af hs hval
  · rw [he] at h; exact absurd h (by simp)

theorem tick_version_bound_af {cfg : LearningConfig}
    {fitf : List Example → Except ContinuumError Estimator} {e : ModelEntry}
    (hs : cfg.auto_swap = false) (hv : e.cell.version ≤ 1) :
    (trainerTickEntry cfg fitf e).1.cell.version ≤ 1 := by
  rcases tick_version_shape cfg fitf e with ⟨h, -⟩ | ⟨h1, hc⟩
  · omega
  · have h0 := tick_committed_af hs hc
    omega

theorem add_eq_mismatch {cfg : LearningConfig}
    {fitf : List Example → Except ContinuumError Estimator} {e : ModelEntry}
    {features : List ℝ} {label : ℝ} {dt : Bool} {d : ℕ}
    (hd : e.dim = some d) (hlen : ¬ features.length = d) :
    add_training_example cfg fitf e features label dt =
      (e, some ContinuumError.DimensionMismatch) := by
  unfold add_training_example
  simp only [hd]
  rw [if_neg hlen]

theorem add_result_cases (cfg : LearningConfig)
    (fitf : List Example → Except ContinuumError Estimator) (e : ModelEntry)
    (features : List ℝ) (label : ℝ) (dt : Bool) :
    (add_training_example cfg fitf e features label dt).1 = e ∨
    (add_training_example cfg fitf e features label dt).1 = pushState e features label ∨
    (add_training_example cfg fitf e features label dt).1 =
      (trainerTickEntry cfg fitf (pushState e features label)).1 := by
  cases hd : e.dim with
  | some d =>
      unfold add_training_example
      simp only [hd]
      by_cases hlen : features.length = d
      · rw [if_pos hlen]
        by_cases hdt : dt = true
        · rw [if_pos hdt]; exact Or.inr (Or.inr rfl)
        · rw [if_neg hdt]; exact Or.inr (Or.inl rfl)
      · rw [if_neg hlen]; exact Or.inl rfl
  | none =>
      unfold add_training_example
      simp only [hd]
      by_cases hdt : dt = true
      · rw [if_pos hdt]; exact Or.inr (Or.inr rfl)
      · rw [if_neg hdt]; exact Or.inr (Or.inl rfl)

theorem add_version_le (cfg : LearningConfig)
    (fitf : List Example → Except ContinuumError Estimator) (e : ModelEntry)
    (features : List ℝ) (label : ℝ) (dt : Bool) :
    e.cell.version ≤ (add_training_example cfg fitf e features label dt).1.cell.version := by
  rcases add_result_cases cfg fitf e features label dt with h | h | h
  · rw [h]
  · rw [h]
    exact le_refl (pushState e features label).cell.version
  · rw [h]
    exact tick_version_le cfg fitf (pushState e features label)

theorem add_version_bound_af {cfg : LearningConfig}
    {fitf : List Example → Except ContinuumError Estimator} {e : ModelEntry}
    {features : List ℝ} {label : ℝ} {dt : Bool}
    (hs : cfg.auto_swap = false) (hv : e.cell.version ≤ 1) :
    (add_training_example cfg fitf e features label dt).1.cell.version ≤ 1 := by
  rcases add_result_cases cfg fitf e features label dt with h | h | h <;> rw [h]
  · exact hv
  · exact hv
  · exact tick_version_bound_af hs hv

theorem entryStep_version_le {cfg : LearningConfig} {e e' : ModelEntry}
    (h : EntryStep cfg e e') : e.cell.version ≤ e'.cell.version := by
  cases h with
  | push fitf features label dt => exact add_version_le cfg fitf e features label dt
  | tick fitf => exact tick_version_le cfg fitf e

theorem entrySteps_version_le {cfg : LearningConfig} {e e' : ModelEntry}
    (h : EntrySteps cfg e e') : e.cell.version ≤ e'.cell.version := by
  unfold EntrySteps at h
  induction h with
  | refl => exact le_refl _
  | tail _ hstep ih => exact le_trans ih (entryStep_version_le hstep)

theorem entryStep_version_bound_af {cfg : LearningConfig} {e e' : ModelEntry}
    (hs : cfg.auto_swap = false) (h : EntryStep cfg e e')
    (hv : e.cell.version ≤ 1) : e'.cell.version ≤ 1 := by
  cases h with
  | push fitf features label dt => exact add_version_bound_af hs hv
  | tick fitf => exact tick_version_bound_af hs hv

theorem entrySteps_version_bound_af {cfg : LearningConfig} {e e' : ModelEntry}
    (hs : cfg.auto_swap = false) (h : EntrySteps cfg e e')
    (hv : e.cell.version ≤ 1) : e'.cell.version ≤ 1 := by
  unfold EntrySteps at h
  induction h with
  | refl => exact hv
  | tail _ hstep ih => exact entryStep_version_bound_af hs hstep ih

theorem tick_commits_first (cfg : LearningConfig)
    (fitf : List Example → Except ContinuumError Estimator) (e : ModelEntry)
    (c : Estimator) (h1 : e.is_training = false)
    (h2 : cfg.min_samples ≤ e.buffer.length) (hf : fitf e.buffer = Except.ok c)
    (hv : e.cell.version = 0) :
    (trainerTickEntry cfg fitf e).2 = TickOutcome.committed ∧
    (trainerTickEntry cfg fitf e).1.cell.version = 1 := by
  have hge : ¬ (e.buffer.length < cfg.min_samples) := Nat.not_lt.mpr h2
  rw [tick_fit_ok (by simp [h1]) hge hf]
  rcases afs_cases cfg e c with ⟨hval, heq⟩ | ⟨hval, heq⟩
  · rw [heq]
    exact ⟨rfl, by simp [commitSwap, hv]⟩
  · rw [hv, validate_zero] at hval
    exact SwapDecision.noConfusion hval

/-! ## Helper lemmas about the KL pipeline -/

theorem klDiv_self (p : List ℝ) : klDiv p p = 0 := by
  unfold klDiv
  induction p with
  | nil => simp
  | cons a t ih =>
      rw [List.zipWith_cons_cons, List.sum_cons, ih, add_zero]
      by_cases ha : a = 0
      · rw [ha, zero_mul]
      · rw [div_self ha, Real.log_one, mul_zero]

theorem addEps_mem_pos {p : List ℝ} (hp : ∀ a ∈ p, 0 ≤ a) :
    ∀ x ∈ addEps p, 0 < x := by
  intro x hx
  obtain ⟨a, ha, rfl⟩ := List.mem_map.mp hx
  have heps : (0:ℝ) < 1e-10 := by norm_num
  linarith [hp a ha]

theorem addEps_ne_nil {p : List ℝ} (hp : p ≠ []) : addEps p ≠ [] := by
  simpa [addEps] using hp

theorem addEps_sum_pos {p : List ℝ} (hne : p ≠ []) (hp : ∀ a ∈ p, 0 ≤ a) :
    0 < (addEps p).sum :=
  List.sum_pos _ (addEps_mem_pos hp) (addEps_ne_nil hne)

theorem normalizeDist_mem_pos {p : List ℝ} (hne : p ≠ []) (hp : ∀ a ∈ p, 0 ≤ a) :
    ∀ x ∈ normalizeDist p, 0 < x := by
  intro x hx
  unfold normalizeDist renormalize at hx
  obtain ⟨a, ha, rfl⟩ := List.mem_map.mp hx
  exact div_pos (addEps_mem_pos hp a ha) (addEps_sum_pos hne hp)

/-! ## Claim theorems -/

/-- C1: for every model entry, the published version is strictly
monotonically increasing over time — every committed swap sets the new
version to exactly the incumbent's version plus 1, and over any sequence of
entry transitions the version observed later is at least the version
observed earlier. -/
theorem C1_version_monotonic :
    (∀ (cfg : LearningConfig) (fitf : List Example → Except ContinuumError Estimator)
        (e : ModelEntry), (trainerTickEntry cfg fitf e).2 = TickOutcome.committed →
        (trainerTickEntry cfg fitf e).1.cell.version = e.cell.version + 1) ∧
    (∀ (cfg : LearningConfig) (e e' : ModelEntry), EntrySteps cfg e e' →
        e.cell.version ≤ e'.cell.version) := by
  constructor
  · intro cfg fitf e h
    exact tick_committed_version h
  · intro cfg e e' h
    exact entrySteps_version_le h

/-- C1 witness: a concrete committed swap raises version 0 to 1, and a
concrete one-step trace observes a non-decreasing version. -/
theorem C1_version_monotonic_witness :
    (trainerTickEntry cfgCommit fitOk entryV0).1.cell.version =
      entryV0.cell.version + 1 ∧
    entryV0.cell.version ≤ (trainerTickEntry cfgCommit fitOk entryV0).1.cell.version :=
  ⟨C1_version_monotonic.1 cfgCommit fitOk entryV0 rfl,
   C1_version_monotonic.2 cfgCommit entryV0 _
     (Relation.ReflTransGen.single (EntryStep.tick entryV0 fitOk))⟩

/-- C6: with `auto_swap == false` the validator discards every candidate
that faces an incumbent (version ≠ 0); since case A precedes case B, a
first successful fit of a version-0 entry still commits and publishes
version 1; hence from a fresh entry the version never advances beyond 1. -/
theorem C6_auto_swap_false_bound :
    (∀ (cfg : LearningConfig) (v : ℕ) (a b : Metrics) (ip cp : List ℝ),
        cfg.auto_swap = false → v ≠ 0 →
        validate v cfg a b ip cp = SwapDecision.discard) ∧
    (∀ (cfg : LearningConfig) (fitf : List Example → Except ContinuumError Estimator)
        (e : ModelEntry) (c : Estimator), cfg.auto_swap = false →
        e.is_training = false → cfg.min_samples ≤ e.buffer.length →
        fitf e.buffer = Except.ok c → e.cell.version = 0 →
        (trainerTickEntry cfg fitf e).2 = TickOutcome.committed ∧
        (trainerTickEntry cfg fitf e).1.cell.version = 1) ∧
    (∀ (cfg : LearningConfig) (e e' : ModelEntry), cfg.auto_swap = false →
        e.cell.version = 0 → EntrySteps cfg e e' → e'.cell.version ≤ 1) := by
  refine ⟨?_, ?_, ?_⟩
  · intro cfg v a b ip cp hs hv
    exact validate_discard_af hv hs a b ip cp
  · intro cfg fitf e c hs h1 h2 hf hv
    exact tick_commits_first cfg fitf e c h1 h2 hf hv
  · intro cfg e e' hs hv h
    exact entrySteps_version_bound_af hs h (by omega)

/-- C6 witness: with auto swap off, a version-1 incumbent yields discard; a
fresh entry still commits its first fit at version 1; and a concrete trace
from version 0 stays at version at most 1. -/
theorem C6_auto_swap_false_bound_witness :
    validate 1 cfgAF ⟨0, 0, 0⟩ ⟨0, 0, 0⟩ [] [] = SwapDecision.discard ∧
    ((trainerTickEntry cfgAF fitOk entryV0).2 = TickOutcome.committed ∧
      (trainerTickEntry cfgAF fitOk entryV0).1.cell.version = 1) ∧
    (trainerTickEntry cfgAF fitOk entryV0).1.cell.version ≤ 1 :=
  ⟨C6_auto_swap_false_bound.1 cfgAF 1 ⟨0, 0, 0⟩ ⟨0, 0, 0⟩ [] [] rfl one_ne_zero,
   C6_auto_swap_false_bound.2.1 cfgAF fitOk entryV0 estSample rfl rfl
     (Nat.zero_le _) rfl rfl,
   C6_auto_swap_false_bound.2.2 cfgAF entryV0 _ rfl rfl
     (Relation.ReflTransGen.single (EntryStep.tick entryV0 fitOk))⟩

/-- C7: `min_samples` gates retraining exactly — on a tick where the buffer
holds `min_samples - 1` examples the idle entry is skipped unchanged, and
on a tick where it holds `min_samples` examples exactly one retrain is
attempted. -/
theorem C7_min_samples_gate :
    ∀ (cfg : LearningConfig) (fitf : List Example → Except ContinuumError Estimator)
      (e1 e2 : ModelEntry), 1 ≤ cfg.min_samples →
      e1.is_training = false → e2.is_training = false →
      e1.buffer.length = cfg.min_samples - 1 →
      e2.buffer.length = cfg.min_samples →
      ((trainerTickEntry cfg fitf e1).2 = TickOutcome.skipped ∧
       (trainerTickEntry cfg fitf e1).1 = e1 ∧
       (trainerTickEntry cfg fitf e2).2.attempted = true) := by
  intro cfg fitf e1 e2 hm h1 h2 hl1 hl2
  have hlt : e1.buffer.length < cfg.min_samples := by omega
  have hge : ¬ e2.buffer.length < cfg.min_samples := by omega
  have hskip := @tick_skip_len cfg fitf e1 (by simp [h1]) hlt
  refine ⟨by rw [hskip], by rw [hskip], ?_⟩
  cases hf : fitf e2.buffer with
  | error err => rw [tick_fit_error (by simp [h2]) hge hf]; rfl
  | ok c =>
      rw [tick_fit_ok (by simp [h2]) hge hf]
      rcases afs_cases cfg e2 c with ⟨-, heq⟩ | ⟨-, heq⟩ <;> rw [heq] <;> rfl

/-- C7 witness: with `min_samples = 1`, an idle entry with an empty buffer
is skipped unchanged, and an idle entry with one buffered example has a
retrain attempted. -/
theorem C7_min_samples_gate_witness :
    (trainerTickEntry cfgMSE fitOk entryV0).2 = TickOutcome.skipped ∧
    (trainerTickEntry cfgMSE fitOk entryV0).1 = entryV0 ∧
    (trainerTickEntry cfgMSE fitOk entryBuf1).2.attempted = true :=
  C7_min_samples_gate cfgMSE fitOk entryV0 entryBuf1 (le_refl 1) rfl rfl rfl rfl

/-- C8: whenever fit fails during a trainer cycle, the error is recorded in
the entry's stats, `is_training` ends released, the published triple is
unchanged (so predictions are unaffected), no error escapes the tick, and
the cycle still processes every other entry of the registry. -/
theorem C8_fit_failure_isolated :
    ∀ (cfg : LearningConfig) (fitf : List Example → Except ContinuumError Estimator)
      (e : ModelEntry) (err : ContinuumError), e.is_training = false →
      cfg.min_samples ≤ e.buffer.length → fitf e.buffer = Except.error err →
      ((trainerTickEntry cfg fitf e).1.cell = e.cell ∧
       (trainerTickEntry cfg fitf e).1.is_training = false ∧
       (trainerTickEntry cfg fitf e).1.stats.last_error = some err ∧
       (trainerTickEntry cfg fitf e).2 = TickOutcome.fitFailed ∧
       (∀ features, predict (trainerTickEntry cfg fitf e).1 features =
          predict e features) ∧
       (∀ pre post, trainerCycle cfg fitf (pre ++ e :: post) =
          trainerCycle cfg fitf pre ++
            (trainerTickEntry cfg fitf e).1 :: trainerCycle cfg fitf post)) := by
  intro cfg fitf e err h1 h2 hf
  have hge : ¬ e.buffer.length < cfg.min_samples := Nat.not_lt.mpr h2
  have hred := tick_fit_error (by simp [h1]) hge hf
  rw [hred]
  refine ⟨rfl, rfl, rfl, rfl, fun features => rfl, fun pre post => ?_⟩
  unfold trainerCycle
  rw [List.map_append, List.map_cons, hred]

/-- C8 witness: a concrete failing fit leaves the cell, releases the flag,
records `NumericalFailure`, surfaces nothing, keeps predictions identical,
and the one-entry cycle still maps over the registry. -/
theorem C8_fit_failure_isolated_witness :
    (trainerTickEntry cfgCommit fitErr entryV0).1.cell = entryV0.cell ∧
    (trainerTickEntry cfgCommit fitErr entryV0).1.is_training = false ∧
    (trainerTickEntry cfgCommit fitErr entryV0).1.stats.last_error =
      some ContinuumError.NumericalFailure ∧
    (trainerTickEntry cfgCommit fitErr entryV0).2 = TickOutcome.fitFailed ∧
    predict (trainerTickEntry cfgCommit fitErr entryV0).1 [0] = predict entryV0 [0] ∧
    trainerCycle cfgCommit fitErr ([] ++ entryV0 :: []) =
      trainerCycle cfgCommit fitErr [] ++
        (trainerTickEntry cfgCommit fitErr entryV0).1 ::
          trainerCycle cfgCommit fitErr [] := by
  obtain ⟨a, b, c, d, e, f⟩ := C8_fit_failure_isolated cfgCommit fitErr entryV0
    ContinuumError.NumericalFailure rfl (Nat.zero_le _) rfl
  exact ⟨a, b, c, d, e [0], f [] []⟩

/-- C2 counterexample: with equal incumbent and candidate metrics and the
default threshold 0.0, the relative-improvement condition
`(mse_i - mse_c) / max(mse_i, 1e-12) ≥ threshold` holds (0 ≥ 0), yet the
validator discards by the tie-breaking rule, so the claimed "commit if and
only if" is false at this input. -/
theorem C2_tie_counterexample :
    validate 1 cfgMSE ⟨1, 0, 1⟩ ⟨1, 0, 1⟩ [] [] = SwapDecision.discard ∧
    relImprovement ⟨1, 0, 1⟩ ⟨1, 0, 1⟩ ≥ cfgMSE.validation_threshold := by
  constructor
  · unfold validate
    rw [if_neg one_ne_zero, if_neg (by simp [cfgMSE]), if_neg (by simp [cfgMSE]),
      if_pos rfl]
  · show relImprovement ⟨1, 0, 1⟩ ⟨1, 0, 1⟩ ≥ (0:ℝ)
    unfold relImprovement
    norm_num

/-- C2 (amended): in MSE mode against an incumbent with auto swap on, the
validator commits iff the candidate's metrics differ from the incumbent's
and `(mse_i - mse_c) / max(mse_i, 1e-12) ≥ validation_threshold`; exactly
equal metrics always discard; the threshold defaults to 0.0. -/
theorem C2_mse_mode_decision :
    (∀ (cfg : LearningConfig) (v : ℕ) (a b : Metrics) (ip cp : List ℝ),
        v ≠ 0 → cfg.auto_swap = true → cfg.use_kl_divergence = false →
        (validate v cfg a b ip cp = SwapDecision.commit ↔
          (b ≠ a ∧ relImprovement a b ≥ cfg.validation_threshold))) ∧
    (∀ (cfg : LearningConfig) (v : ℕ) (a : Metrics) (ip cp : List ℝ),
        v ≠ 0 → cfg.auto_swap = true → cfg.use_kl_divergence = false →
        validate v cfg a a ip cp = SwapDecision.discard) ∧
    defaultValidationThreshold = 0 := by
  refine ⟨?_, ?_, rfl⟩
  · intro cfg v a b ip cp hv hs hk
    unfold validate
    rw [if_neg hv, if_neg (by simp [hs]), if_neg (by simp [hk])]
    by_cases hm : b = a
    · rw [if_pos hm]
      simp [hm]
    · rw [if_neg hm]
      by_cases ht : relImprovement a b ≥ cfg.validation_threshold
      · rw [if_pos ht]
        simp [hm, ht]
      · rw [if_neg ht]
        simp [hm, ht]
  · intro cfg v a ip cp hv hs hk
    unfold validate
    rw [if_neg hv, if_neg (by simp [hs]), if_neg (by simp [hk]), if_pos rfl]

/-- C2 witness: a concrete MSE-mode decision satisfying the amended iff,
and a concrete equal-metrics discard. -/
theorem C2_mse_mode_decision_witness :
    (validate 1 cfgMSE ⟨1, 0, 1⟩ ⟨0, 0, 1⟩ [] [] = SwapDecision.commit ↔
      ((⟨0, 0, 1⟩ : Metrics) ≠ ⟨1, 0, 1⟩ ∧
        relImprovement ⟨1, 0, 1⟩ ⟨0, 0, 1⟩ ≥ cfgMSE.validation_threshold)) ∧
    validate 1 cfgMSE ⟨1, 0, 1⟩ ⟨1, 0, 1⟩ [] [] = SwapDecision.discard :=
  ⟨C2_mse_mode_decision.1 cfgMSE 1 ⟨1, 0, 1⟩ ⟨0, 0, 1⟩ [] [] one_ne_zero rfl rfl,
   C2_mse_mode_decision.2.1 cfgMSE 1 ⟨1, 0, 1⟩ [] [] one_ne_zero rfl rfl⟩

/-- C3 counterexample: with identical prediction vectors the pipeline
yields identical distributions, so `KL(candidate ‖ incumbent) = 0`, which
meets the default threshold `0`, yet the validator discards by the
tie-breaking rule, so the claimed "commit if and only if KL ≥ threshold"
is false at this input. -/
theorem C3_kl_tie_counterexample :
    validate 1 cfgKL ⟨0, 0, 0⟩ ⟨0, 0, 0⟩ [1, 2] [1, 2] = SwapDecision.discard ∧
    klDiv (toEmpiricalDist [1, 2]) (toEmpiricalDist [1, 2]) ≥
      cfgKL.validation_threshold := by
  constructor
  · unfold validate
    rw [if_neg one_ne_zero, if_neg (by simp [cfgKL]), if_pos rfl, if_pos rfl]
    rfl
  · rw [klDiv_self]
    show (0:ℝ) ≥ cfgKL.validation_threshold
    norm_num [cfgKL]

/-- C3 (amended): in KL mode against an incumbent with auto swap on, the
prediction vectors go through min-max normalization, `+1e-10` smoothing and
renormalization, and the validator commits iff the candidate's predictions
differ from the incumbent's and `KL(candidate ‖ incumbent) ≥
validation_threshold` on the resulting distributions; exactly equal
prediction vectors always discard. -/
theorem C3_kl_mode_decision :
    (∀ xs : List ℝ, toEmpiricalDist xs = renormalize (addEps (minmaxNormalize xs))) ∧
    (∀ (cfg : LearningConfig) (v : ℕ) (a b : Metrics) (ip cp : List ℝ),
        v ≠ 0 → cfg.auto_swap = true → cfg.use_kl_divergence = true → cp ≠ ip →
        (validate v cfg a b ip cp = SwapDecision.commit ↔
          klDiv (toEmpiricalDist cp) (toEmpiricalDist ip) ≥
            cfg.validation_threshold)) ∧
    (∀ (cfg : LearningConfig) (v : ℕ) (a b : Metrics) (p : List ℝ),
        v ≠ 0 → cfg.auto_swap = true → cfg.use_kl_divergence = true →
        validate v cfg a b p p = SwapDecision.discard) := by
  refine ⟨fun xs => rfl, ?_, ?_⟩
  · intro cfg v a b ip cp hv hs hk hne
    unfold validate
    rw [if_neg hv, if_neg (by simp [hs]), if_pos hk, if_neg hne]
    by_cases ht : klDiv (toEmpiricalDist cp) (toEmpiricalDist ip) ≥
        cfg.validation_threshold
    · rw [if_pos ht]
      simp [ht]
    · rw [if_neg ht]
      simp [ht]
  · intro cfg v a b p hv hs hk
    unfold validate
    rw [if_neg hv, if_neg (by simp [hs]), if_pos hk, if_pos rfl]

/-- C3 witness: the pipeline equation at a concrete vector, a concrete
KL-mode decision satisfying the amended iff, and a concrete equal-vector
discard. -/
theorem C3_kl_mode_decision_witness :
    toEmpiricalDist [1] = renormalize (addEps (minmaxNormalize [1])) ∧
    (validate 1 cfgKL ⟨0, 0, 0⟩ ⟨0, 0, 0⟩ [2] [1] = SwapDecision.commit ↔
      klDiv (toEmpiricalDist [1]) (toEmpiricalDist [2]) ≥
        cfgKL.validation_threshold) ∧
    validate 1 cfgKL ⟨0, 0, 0⟩ ⟨0, 0, 0⟩ [3] [3] = SwapDecision.discard :=
  ⟨C3_kl_mode_decision.1 [1],
   C3_kl_mode_decision.2.1 cfgKL 1 ⟨0, 0, 0⟩ ⟨0, 0, 0⟩ [2] [1] one_ne_zero rfl rfl
     (by norm_num),
   C3_kl_mode_decision.2.2 cfgKL 1 ⟨0, 0, 0⟩ ⟨0, 0, 0⟩ [3] one_ne_zero rfl rfl⟩

/-- C4: predicting on a version-0 entry (registered but never successfully
fit) fails with `NotTrained`, and every successful predict result carries a
version strictly greater than 0. -/
theorem C4_version_zero_not_trained :
    (∀ (e : ModelEntry) (features : List ℝ), e.cell.version = 0 →
        predict e features = Except.error ContinuumError.NotTrained) ∧
    (∀ (e : ModelEntry) (features : List ℝ) (y : ℝ) (v : ℕ),
        predict e features = Except.ok (y, v) → 0 < v) := by
  constructor
  · intro e features hv
    unfold predict predictTriple
    rw [if_pos hv]
  · intro e features y v h
    unfold predict predictTriple at h
    by_cases hv : e.cell.version = 0
    · rw [if_pos hv] at h
      exact absurd h (by simp)
    · rw [if_neg hv] at h
      cases hest : e.cell.estimator with
      | none =>
          simp only [hest] at h
          exact absurd h (by simp)
      | some est =>
          simp only [hest] at h
          by_cases hd : features.length = est.dim
          · rw [if_pos hd] at h
            simp only [Except.ok.injEq, Prod.mk.injEq] at h
            obtain ⟨-, h4⟩ := h
            rw [← h4]
            exact Nat.pos_of_ne_zero hv
          · rw [if_neg hd] at h
            exact absurd h (by simp)

/-- C4 witness: predicting on a concrete version-0 entry fails
`NotTrained`, and a concrete successful predict has a positive version. -/
theorem C4_version_zero_not_trained_witness :
    predict entryV0 [0] = Except.error ContinuumError.NotTrained ∧ 0 < 1 :=
  ⟨C4_version_zero_not_trained.1 entryV0 [0] rfl,
   C4_version_zero_not_trained.2 entryV1 [0] 0 1 rfl⟩

/-- C5: once a feature dimensionality is established, adding an example of
any other length fails `DimensionMismatch` and leaves the entry — in
particular the buffer — unchanged; the dimensionality is fixed at the
first successful fit and preserved by every later tick. -/
theorem C5_dimension_lock :
    (∀ (cfg : LearningConfig) (fitf : List Example → Except ContinuumError Estimator)
        (e : ModelEntry) (features : List ℝ) (label : ℝ) (dt : Bool) (d : ℕ),
        e.dim = some d → features.length ≠ d →
        add_training_example cfg fitf e features label dt =
          (e, some ContinuumError.DimensionMismatch)) ∧
    (∀ (cfg : LearningConfig) (fitf : List Example → Except ContinuumError Estimator)
        (e : ModelEntry) (c : Estimator), e.dim = none → e.is_training = false →
        cfg.min_samples ≤ e.buffer.length → fitf e.buffer = Except.ok c →
        (trainerTickEntry cfg fitf e).1.dim = some c.dim) ∧
    (∀ (cfg : LearningConfig) (fitf : List Example → Except ContinuumError Estimator)
        (e : ModelEntry) (d : ℕ), e.dim = some d →
        (trainerTickEntry cfg fitf e).1.dim = some d) := by
  refine ⟨?_, ?_, ?_⟩
  · intro cfg fitf e features label dt d hd hlen
    exact add_eq_mismatch hd hlen
  · intro cfg fitf e c hd h1 h2 hf
    have hge : ¬ e.buffer.length < cfg.min_samples := Nat.not_lt.mpr h2
    rw [tick_fit_ok (by simp [h1]) hge hf]
    rcases afs_cases cfg e c with ⟨-, heq⟩ | ⟨-, heq⟩ <;> rw [heq]
    · simp [commitSwap, hd]
    · simp [discardCandidate, hd]
  · intro cfg fitf e d hd
    rcases tick_cases cfg fitf e with he | ⟨err, he⟩ | ⟨c, he, -⟩ | ⟨c, he⟩ <;> rw [he]
    · exact hd
    · exact hd
    · simp [commitSwap, hd]
    · simp [discardCandidate, hd]

/-- C5 witness: a wrong-length push on a dimension-1 entry fails and leaves
the entry unchanged; a first successful fit fixes the dimension; a tick on
an already-fixed entry preserves it. -/
theorem C5_dimension_lock_witness :
    add_training_example cfgCommit fitOk entryV1 [0, 0] 0 false =
      (entryV1, some ContinuumError.DimensionMismatch) ∧
    (trainerTickEntry cfgCommit fitOk entryBuf1).1.dim = some estSample.dim ∧
    (trainerTickEntry cfgCommit fitOk entryV1).1.dim = some 1 :=
  ⟨C5_dimension_lock.1 cfgCommit fitOk entryV1 [0, 0] 0 false 1 rfl (by decide),
   C5_dimension_lock.2.1 cfgCommit fitOk entryBuf1 estSample rfl rfl
     (Nat.zero_le _) rfl,
   C5_dimension_lock.2.2 cfgCommit fitOk entryV1 1 rfl⟩

/-- C9: each of the six public classes of `continuum/__init__.py` is an
empty-bodied subclass of its `Py*` base, so for every method name and every
input, a call resolved through the alias class behaves identically to the
same call on the underlying base class. -/
theorem C9_binding_transparent :
    ∀ (α β : Type) (base : Binding.PyClassT α β) (m : String) (x : α),
      Binding.callMethod (Binding.Continuum base) m x = Binding.callMethod base m x ∧
      Binding.callMethod (Binding.ModelParameters base) m x =
        Binding.callMethod base m x ∧
      Binding.callMethod (Binding.LearningConfig base) m x =
        Binding.callMethod base m x ∧
      Binding.callMethod (Binding.PredictionResponse base) m x =
        Binding.callMethod base m x ∧
      Binding.callMethod (Binding.BatchPredictionResponse base) m x =
        Binding.callMethod base m x ∧
      Binding.callMethod (Binding.ModelInfo base) m x = Binding.callMethod base m x :=
  fun _α _β _base _m _x => ⟨rfl, rfl, rfl, rfl, rfl, rfl⟩

/-- C10 counterexample: the empty vectors are an (equal-length, vacuously
non-negative) input on which the sum after `+1e-10` smoothing is 0, not
strictly positive, so the claim as stated fails at the empty input. -/
theorem C10_empty_counterexample :
    addEps ([] : List ℝ) = [] ∧ (addEps ([] : List ℝ)).sum = 0 ∧
      ¬ (0 < (addEps ([] : List ℝ)).sum) := by
  refine ⟨rfl, ?_, ?_⟩ <;> simp [addEps]

/-- C10 (amended): for every pair of equal-length non-empty sequences of
non-negative reals, after adding `1e-10` both sums are strictly positive,
every normalized element is strictly positive, and every ratio fed to the
logarithm is non-zero, so the demo's `kl_divergence` never divides by zero
nor takes the logarithm of zero. -/
theorem C10_kl_divergence_safety :
    ∀ p q : List ℝ, p.length = q.length → p ≠ [] →
      (∀ a ∈ p, 0 ≤ a) → (∀ b ∈ q, 0 ≤ b) →
      (0 < (addEps p).sum ∧ 0 < (addEps q).sum ∧
       (∀ x ∈ normalizeDist p, 0 < x) ∧ (∀ y ∈ normalizeDist q, 0 < y) ∧
       (∀ x ∈ normalizeDist p, ∀ y ∈ normalizeDist q, x / y ≠ 0)) := by
  intro p q hlen hne hp hq
  have hqne : q ≠ [] := by
    intro hq0
    rw [hq0] at hlen
    simp only [List.length_nil] at hlen
    exact hne (List.length_eq_zero.mp hlen)
  refine ⟨addEps_sum_pos hne hp, addEps_sum_pos hqne hq,
    normalizeDist_mem_pos hne hp, normalizeDist_mem_pos hqne hq, ?_⟩
  intro x hx y hy
  exact ne_of_gt (div_pos (normalizeDist_mem_pos hne hp x hx)
    (normalizeDist_mem_pos hqne hq y hy))

/-- C10 witness: both smoothed sums are strictly positive at the concrete
input `p = q = [1]`. -/
theorem C10_kl_divergence_safety_witness :
    0 < (addEps [(1:ℝ)]).sum ∧ 0 < (addEps [(1:ℝ)]).sum := by
  obtain ⟨a, b, -, -, -⟩ := C10_kl_divergence_safety [1] [1] rfl (by simp)
    (by norm_num) (by norm_num)
  exact ⟨a, b⟩

end Continuum
